import Mathlib

/-!
Verification development for the medical-report simplifier core
(`core/parser.py`, `core/summarizer.py`, `core/pipeline.py`,
`core/knowledge_base.py`).  The Python code is shallowly embedded:
pure functions become Lean functions over `List Char` / `String` / `ℚ`,
the two regular expressions are embedded as specialized deterministic
matchers with the same backtracking preferences, and fallible steps
return `Option`.
-/

namespace MedSimp

/-! ## Character classes and small string utilities -/

/-- Python's `\s` on the ASCII range (space, tab, newline, carriage return,
vertical tab, form feed). -/
def isPySpace (c : Char) : Bool :=
  c == ' ' || c == '\t' || c == '\n' || c == '\r' ||
  c == Char.ofNat 11 || c == Char.ofNat 12

/-- ASCII lowercasing, the effect of Python `str.lower()` on the
characters that occur in this pipeline. -/
def charToLower (c : Char) : Char :=
  if 'A' ≤ c ∧ c ≤ 'Z' then Char.ofNat (c.toNat + 32) else c

/-- String version of `charToLower`. -/
def myToLowerStr (s : String) : String :=
  String.mk (s.data.map charToLower)

/-- Python `str.strip()` on a character list. -/
def stripChars (l : List Char) : List Char :=
  ((l.dropWhile isPySpace).reverse.dropWhile isPySpace).reverse

/-- Python `str.strip()`. -/
def pyStrip (s : String) : String := String.mk (stripChars s.data)

/-- One step of Python `str.replace` (all occurrences, left to right),
with explicit fuel so that the definition is structural. -/
def pyReplaceGo (pat rep : List Char) : Nat → List Char → List Char
  | 0, l => l
  | _, [] => []
  | fuel + 1, c :: t =>
    if !pat.isEmpty && pat.isPrefixOf (c :: t) then
      rep ++ pyReplaceGo pat rep fuel ((c :: t).drop pat.length)
    else
      c :: pyReplaceGo pat rep fuel t

/-- Python `str.replace(pat, rep)` on character lists. -/
def pyReplace (l pat rep : List Char) : List Char :=
  pyReplaceGo pat rep l.length l

/-- Python's substring test `needle in hay`. -/
def listContainsSub (needle : List Char) : List Char → Bool
  | [] => needle.isEmpty
  | c :: t => needle.isPrefixOf (c :: t) || listContainsSub needle t

/-- Python `", ".join`-style joining. -/
def joinWith (sep : String) : List String → String
  | [] => ""
  | [s] => s
  | s :: rest => s ++ sep ++ joinWith sep rest

/-- Truthiness of an optional Python string (`None` and `""` are falsy). -/
def strTruthy : Option String → Bool
  | none => false
  | some s => !(s == "")

/-! ## Rounding (Python `round(x, 2)`, round-half-to-even) -/

/-- Round-half-to-even to the nearest integer, as Python's `round`.
Written with integer arithmetic on the numerator and denominator
(`q - ⌊q⌋ = r / den` with `0 ≤ r < den`) so that it evaluates by kernel
reduction; `roundHalfEven_eq_floor_or` below recovers the usual
floor-based reading. -/
def roundHalfEven (q : ℚ) : ℤ :=
  if 2 * (q.num - q.floor * q.den) < (q.den : ℤ) then q.floor
  else if (q.den : ℤ) < 2 * (q.num - q.floor * q.den) then q.floor + 1
  else if q.floor % 2 = 0 then q.floor else q.floor + 1

/-- Python `round(q, 2)`: round-half-even applied to `q * 100`
(represented as the fraction `(q.num * 100) / q.den`), divided by 100. -/
def pyRound2 (q : ℚ) : ℚ :=
  Rat.divInt (roundHalfEven (Rat.divInt (q.num * 100) q.den)) 100

/-! ## Data model (`spec.md` §3, `core/knowledge_base.py`) -/

/-- A reference range from the catalog (`ref_range` in the code). -/
structure RefRange where
  low : ℚ
  high : ℚ
deriving DecidableEq

/-- One entry of `MEDICAL_TESTS` in `core/knowledge_base.py`. -/
structure CatalogEntry where
  unit : String
  ref_range : RefRange
  explanation_low : String
  explanation_high : String
deriving DecidableEq

/-- Abnormality status of a normalized test. -/
inductive Status where
  | low
  | normal
  | high
deriving DecidableEq

/-- The status strings used by the Python code. -/
def statusName : Status → String
  | .low => "low"
  | .normal => "normal"
  | .high => "high"

/-- A fully validated record, as appended by `normalize_tests`. -/
structure NormalizedTest where
  name : String
  value : ℚ
  unit : String
  status : Status
  ref_range : RefRange
deriving DecidableEq

/-- Association-list lookup, the embedding of Python `dict.get` for the
fixed string-keyed tables of this program (keys are unique). -/
def assocFind {α : Type} (key : String) : List (String × α) → Option α
  | [] => none
  | (k, v) :: t => if k == key then some v else assocFind key t

/-- The `MEDICAL_TESTS` table of `core/knowledge_base.py`, in source order. -/
def medicalTests : List (String × CatalogEntry) :=
  [ ("hemoglobin",
     { unit := "g/dL", ref_range := { low := 12, high := 15 },
       explanation_low := "is lower than the normal range, which may relate to anemia or nutritional issues.",
       explanation_high := "is higher than the normal range, which can occur due to dehydration or other conditions." }),
    ("wbc",
     { unit := "/uL", ref_range := { low := 4000, high := 11000 },
       explanation_low := "count is lower than the normal range, which can reduce the body's ability to fight infection.",
       explanation_high := "count is higher than the normal range, which may be linked to infection or inflammation." }),
    ("platelets",
     { unit := "/uL", ref_range := { low := 150000, high := 450000 },
       explanation_low := "count is lower than the normal range, which may increase bleeding risk.",
       explanation_high := "count is higher than the normal range, which may increase the risk of clotting." }),
    ("rbc",
     { unit := "million/uL", ref_range := { low := mkRat 42 10, high := mkRat 54 10 },
       explanation_low := "count is lower than the normal range, which may indicate anemia or blood loss.",
       explanation_high := "count is higher than the normal range, which may relate to dehydration or other conditions." }),
    ("glucose",
     { unit := "mg/dL", ref_range := { low := 70, high := 100 },
       explanation_low := "level is lower than the normal range, which may indicate hypoglycemia.",
       explanation_high := "level is higher than the normal range, which may indicate a risk of diabetes." }),
    ("creatinine",
     { unit := "mg/dL", ref_range := { low := mkRat 6 10, high := mkRat 13 10 },
       explanation_low := "level is lower than the normal range, which is usually not a cause for concern.",
       explanation_high := "level is higher than the normal range, which may indicate issues with kidney function." }),
    ("bun",
     { unit := "mg/dL", ref_range := { low := 7, high := 20 },
       explanation_low := "level is lower than the normal range, which is usually not a cause for concern.",
       explanation_high := "level (Blood Urea Nitrogen) is higher than the normal range, which may relate to kidney function or dehydration." }),
    ("sodium",
     { unit := "mEq/L", ref_range := { low := 135, high := 145 },
       explanation_low := "level is lower than the normal range, which can be caused by various conditions including fluid loss.",
       explanation_high := "level is higher than the normal range, often related to dehydration." }),
    ("potassium",
     { unit := "mEq/L", ref_range := { low := mkRat 35 10, high := 5 },
       explanation_low := "level is lower than the normal range, which can affect muscle and heart function.",
       explanation_high := "level is higher than the normal range, which can also impact heart function." }),
    ("cholesterol",
     { unit := "mg/dL", ref_range := { low := 125, high := 200 },
       explanation_low := "level is lower than the normal range, which is rarely a concern.",
       explanation_high := "level is higher than the normal range, which may increase the risk of heart disease." }),
    ("triglycerides",
     { unit := "mg/dL", ref_range := { low := 0, high := 150 },
       explanation_low := "level is within the normal range.",
       explanation_high := "level is higher than the normal range, which is a risk factor for heart disease." }),
    ("blood sugar (fasting)",
     { unit := "mg/dL", ref_range := { low := 70, high := 100 },
       explanation_low := "level is lower than the normal range for a fasting test, which can cause dizziness or weakness.",
       explanation_high := "level is higher than the normal range for a fasting test, which may indicate a risk of diabetes." }),
    ("blood sugar (postprandial)",
     { unit := "mg/dL", ref_range := { low := 70, high := 140 },
       explanation_low := "level is lower than the normal range after a meal, which can cause fatigue.",
       explanation_high := "level is higher than the normal range after a meal, which may indicate impaired glucose tolerance." }) ]

/-- `MEDICAL_TESTS.get(name)`. -/
def lookupTest (key : String) : Option CatalogEntry := assocFind key medicalTests

/-- `VALID_TEST_NAMES = list(MEDICAL_TESTS.keys())`. -/
def validTestNames : List String := medicalTests.map (·.1)

/-! ## Status Resolver (`_determine_status`, `core/parser.py` lines 83-115) -/

/-- The fixed abbreviation/typo table `status_map` of `_determine_status`. -/
def statusTable : List (String × Status) :=
  [ ("high", .high), ("hgh", .high), ("h", .high), ("ligh", .high),
    ("low", .low), ("l", .low), ("loh", .low),
    ("normal", .normal), ("n", .normal), ("noraml", .normal) ]

/-- The written-status branch of `_determine_status` (lines 90-106): lower
the phrase, look it up in the table, otherwise fall back to substring
containment of "high" / "low", otherwise skip the test (`None`). -/
def statusFromToken (tok : String) : Option Status :=
  let phrase := myToLowerStr tok
  match assocFind phrase statusTable with
  | some st => some st
  | none =>
    if listContainsSub "high".data phrase.data then some .high
    else if listContainsSub "low".data phrase.data then some .low
    else none

/-- `_determine_status(status_raw, value, test_info)`: an explicit (truthy)
token is normalized via `statusFromToken`; otherwise the status is derived
from the value against the entry's reference range. -/
def determineStatus (statusRaw : Option String) (value : ℚ) (info : CatalogEntry) :
    Option Status :=
  if strTruthy statusRaw then
    statusFromToken (statusRaw.getD "")
  else
    some (if value < info.ref_range.low then .low
          else if info.ref_range.high < value then .high
          else .normal)

/-! ## Unit Validator (`_sanitize_unit`, `core/parser.py` lines 70-80) -/

/-- `_sanitize_unit`: lowercase, remove all whitespace, and if the ASCII
substring "ul" occurs, rewrite `ul` and the Greek `μl` to the micro sign
form `µl`. -/
def sanitizeUnit (u : String) : String :=
  let lowered := u.data.map charToLower
  let noSpace := lowered.filter (fun c => !(isPySpace c))
  let chars :=
    if listContainsSub "ul".data noSpace then
      pyReplace (pyReplace noSpace "ul".data "µl".data) "μl".data "µl".data
    else noSpace
  String.mk chars

/-! ## Value conversion (`float(value_str)` on the cleaned value token) -/

/-- Decimal value of a digit list. -/
def digitsVal (l : List Char) : Nat :=
  l.foldl (fun a c => a * 10 + (c.toNat - 48)) 0

/-- Python `float()` restricted to the strings reachable here: after the
cleanup in `normalize_tests` the value token consists of digits and dots
only, and `float` accepts it iff it has at most one dot and at least one
digit.  Any other string is rejected (`ValueError` → skip). -/
def parsePyFloat (s : String) : Option ℚ :=
  let l := s.data
  if l.all (fun c => c.isDigit || c == '.') then
    match (l.filter (fun c => c == '.')).length with
    | 0 => if l.isEmpty then none else some (Rat.divInt (digitsVal l) 1)
    | 1 =>
      let ip := l.takeWhile (fun c => !(c == '.'))
      let fp := (l.dropWhile (fun c => !(c == '.'))).tail
      if ip.isEmpty && fp.isEmpty then none
      else some (Rat.divInt (digitsVal ip * 10 ^ fp.length + digitsVal fp) (10 ^ fp.length))
    | _ => none
  else none

/-- The cleanup applied to the raw value token in `normalize_tests`
(line 144): drop thousands separators and map the OCR confusions
`o`/`O` to `0`. -/
def cleanValueChars (l : List Char) : List Char :=
  (l.filter (fun c => !(c == ','))).map (fun c => if c == 'o' || c == 'O' then '0' else c)

/-! ## Name Resolver (`find_best_test_name_match`, `core/parser.py` lines 49-68) -/

/-- One row of the Levenshtein distance table. -/
def levGo (ca : Char) : List Char → List Nat → Nat → List Nat
  | cb :: bt, pdiag :: ptail, left =>
    let pj1 := ptail.headD 0
    let cost := if ca == cb then 0 else 1
    let cur := min (pdiag + cost) (min (pj1 + 1) (left + 1))
    cur :: levGo ca bt ptail cur
  | _, _, _ => []

/-- Levenshtein edit distance between two character lists. -/
def levDistance (a b : List Char) : Nat :=
  (a.foldl
    (fun prev ca =>
      let first := prev.headD 0 + 1
      first :: levGo ca b prev first)
    (List.range (b.length + 1))).getLastD 0

/-- Modelled from the spec: the similarity scorer used by the Name
Resolver is the external `thefuzz` library (`process.extractOne`), whose
code is not part of this repository.  Spec §4.2 requires an approximate
edit-distance-family similarity on a 0-100 scale; we use the normalized
Levenshtein similarity. -/
def similarityScore (a b : String) : Nat :=
  let m := max a.data.length b.data.length
  if m = 0 then 100
  else (100 * (m - levDistance a.data b.data)) / m

/-- Modelled from the spec: `process.extractOne` selects the
highest-scoring catalog key, keeping the first of equally scored keys
(a deterministic tie-break, as §4.2 requires).  The cutoff test
(`score >= score_cutoff`, else reject) is from `find_best_test_name_match`
in the source. -/
def findBestTestNameMatch (rawName : String) (validNames : List String)
    (scoreCutoff : Nat) : Option String :=
  let best := validNames.foldl
    (fun acc n =>
      match acc with
      | none => some (n, similarityScore rawName n)
      | some (bn, bs) =>
        let s := similarityScore rawName n
        if bs < s then some (n, s) else some (bn, bs))
    none
  match best with
  | none => none
  | some (bn, bs) => if scoreCutoff ≤ bs then some bn else none

/-! ## Line Extractor (`_extract_test_lines_from_text`, `core/parser.py`
lines 11-39)

The forgiving pattern
`([a-zA-Z\s\(\)]+?)\s*:?\s*([\d,.]+)\s*([a-zA-Z\s/µdL]+)?(?:\s*\(([\w\s]+)\)?)?`
is embedded as a specialized matcher.  After the lazy name group, every
later element is either a greedy run over a character class that is
disjoint from what follows, or optional with an always-succeeding
continuation, so the backtracking engine's preferred parse is the
greedy-maximal one computed here. -/

/-- Name class of the forgiving pattern: `[a-zA-Z\s\(\)]`. -/
def nameClassF (c : Char) : Bool :=
  c.isAlpha || isPySpace c || c == '(' || c == ')'

/-- Value class of the forgiving pattern: `[\d,.]`. -/
def valueClassF (c : Char) : Bool :=
  c.isDigit || c == ',' || c == '.'

/-- Unit class of both patterns: `[a-zA-Z\s/µdL]` (the `d`/`L` literals are
subsumed by the letter range). -/
def unitClass (c : Char) : Bool :=
  c.isAlpha || isPySpace c || c == '/' || c == 'µ'

/-- Status class of both patterns: `[\w\s]` (ASCII). -/
def statusClass (c : Char) : Bool :=
  c.isAlpha || c.isDigit || c == '_' || isPySpace c

/-- Length consumed by the optional status group `(?:\s*\(([\w\s]+)\)?)?`
of the forgiving pattern (0 when the group does not match). -/
def statusLenF (l : List Char) : Nat :=
  let sp := l.takeWhile isPySpace
  match l.dropWhile isPySpace with
  | '(' :: t =>
    let w := t.takeWhile statusClass
    if w.isEmpty then 0
    else
      match t.dropWhile statusClass with
      | ')' :: _ => sp.length + 1 + w.length + 1
      | _ => sp.length + 1 + w.length
  | _ => 0

/-- Attempt the part of the forgiving pattern after the name group,
returning the number of characters consumed.  `\s*:?\s*`, then the
mandatory value run, then `\s*`, the optional unit run and the optional
status group. -/
def tryRestF (l : List Char) : Option Nat :=
  let sp1 := l.takeWhile isPySpace
  let r1 := l.dropWhile isPySpace
  let (cLen, r2) := match r1 with
    | ':' :: t => (1, t)
    | _ => (0, r1)
  let sp2 := r2.takeWhile isPySpace
  let r3 := r2.dropWhile isPySpace
  let v := r3.takeWhile valueClassF
  if v.isEmpty then none
  else
    let r4 := r3.dropWhile valueClassF
    let sp3 := r4.takeWhile isPySpace
    let r5 := r4.dropWhile isPySpace
    let u := r5.takeWhile unitClass
    let r6 := r5.dropWhile unitClass
    some (sp1.length + cLen + sp2.length + v.length + sp3.length + u.length
          + statusLenF r6)

/-- Lazy name group `([a-zA-Z\s\(\)]+?)`: take the shortest non-empty run
of name-class characters whose continuation matches; return the total
match length. -/
def lazyNameF (seen : Nat) : List Char → Option Nat
  | [] => none
  | c :: t =>
    if nameClassF c then
      match tryRestF t with
      | some r => some (seen + 1 + r)
      | none => lazyNameF (seen + 1) t
    else none

/-- `pattern.finditer` over one line: repeatedly find the leftmost match
and continue after it (matches are non-overlapping and non-empty).  The
fuel argument is the length of the line. -/
def scanLineF : Nat → List Char → List String
  | 0, _ => []
  | _, [] => []
  | fuel + 1, c :: t =>
    match lazyNameF 0 (c :: t) with
    | some len =>
      pyStrip (String.mk ((c :: t).take len)) :: scanLineF fuel ((c :: t).drop len)
    | none => scanLineF fuel t

/-- Insert a space between a letter and an immediately following digit
(`re.sub(r'([a-zA-Z])(?=\d)', r'\1 ', text)`). -/
def insertSpaces : List Char → List Char
  | [] => []
  | [c] => [c]
  | a :: b :: t =>
    if a.isAlpha && b.isDigit then a :: ' ' :: insertSpaces (b :: t)
    else a :: insertSpaces (b :: t)

/-- `re.split(r'[\n;]+', text)`: split on runs of newline/semicolon
characters (runs collapse; leading/trailing runs yield empty segments). -/
def splitRuns (l : List Char) : List (List Char) :=
  let step := fun (st : List (List Char) × List Char × Bool) (c : Char) =>
    let (done, cur, afterSep) := st
    if c == '\n' || c == ';' then
      if afterSep then (done, cur, true)
      else (done ++ [cur.reverse], [], true)
    else (done, c :: cur, false)
  let (done, cur, _) := l.foldl step ([], [], false)
  done ++ [cur.reverse]

/-- `_extract_test_lines_from_text`: lowercase, remove the boilerplate
headers `cbc:` then `bc:`, separate glued letter-digit pairs, split into
lines, and collect every (stripped) match of the forgiving pattern. -/
def extractTestLines (raw : String) : List String :=
  let lowered := raw.data.map charToLower
  let noH1 := pyReplace lowered "cbc:".data []
  let noH2 := pyReplace noH1 "bc:".data []
  let spaced := insertSpaces noH2
  let lines := splitRuns spaced
  (lines.map (fun ln => scanLineF ln.length ln)).flatten

/-! ## Normalization Orchestrator (`normalize_tests`, `core/parser.py`
lines 117-186)

The stricter pattern
`([a-zA-Z\s\d\.\(\)]+?)(?:\s*:\s*|\s+)([\d,.oO]+)\s*([a-zA-Z\s/µdL]+)?(?:\s*\(([\w\s]+)\))?`
is embedded the same way; here the separator is an alternation (colon
form preferred) and the status group requires its closing parenthesis. -/

/-- Name class of the strict pattern: `[a-zA-Z\s\d\.\(\)]`. -/
def nameClassS (c : Char) : Bool :=
  c.isAlpha || isPySpace c || c.isDigit || c == '.' || c == '(' || c == ')'

/-- Value class of the strict pattern: `[\d,.oO]`. -/
def valueClassS (c : Char) : Bool :=
  c.isDigit || c == ',' || c == '.' || c == 'o' || c == 'O'

/-- The decomposition of a candidate line by the strict pattern
(raw groups, before any stripping or cleanup). -/
structure RawFields where
  nameChars : List Char
  valueChars : List Char
  unitChars : Option (List Char)
  statusChars : Option (List Char)
deriving DecidableEq

/-- The strict status group `(?:\s*\(([\w\s]+)\))?`: captured phrase, or
`none` when the group (including its mandatory `)`) does not match. -/
def statusCaptureS (l : List Char) : Option (List Char) :=
  match l.dropWhile isPySpace with
  | '(' :: t =>
    let w := t.takeWhile statusClass
    if w.isEmpty then none
    else
      match t.dropWhile statusClass with
      | ')' :: _ => some w
      | _ => none
  | _ => none

/-- The strict pattern after the name group.  The separator alternation
`(?:\s*:\s*|\s+)` prefers the colon form; when the colon form matches but
no value character follows, the whitespace form necessarily fails as
well (the next character is the colon or a space), so committing to the
colon form is faithful to the backtracking engine. -/
def tryRestS (l : List Char) : Option (List Char × Option (List Char) × Option (List Char)) :=
  let sp1 := l.takeWhile isPySpace
  let afterSep : Option (List Char) :=
    match l.dropWhile isPySpace with
    | ':' :: t => some (t.dropWhile isPySpace)
    | _ => if sp1.isEmpty then none else some (l.dropWhile isPySpace)
  match afterSep with
  | none => none
  | some r2 =>
    let v := r2.takeWhile valueClassS
    if v.isEmpty then none
    else
      let r3 := r2.dropWhile valueClassS
      let r4 := r3.dropWhile isPySpace
      let u := r4.takeWhile unitClass
      let r5 := r4.dropWhile unitClass
      let uOpt := if u.isEmpty then none else some u
      some (v, uOpt, statusCaptureS r5)

/-- Lazy name group of the strict pattern. -/
def lazyNameS (acc : List Char) : List Char → Option RawFields
  | [] => none
  | c :: t =>
    if nameClassS c then
      match tryRestS t with
      | some (v, u, st) => some ⟨acc ++ [c], v, u, st⟩
      | none => lazyNameS (acc ++ [c]) t
    else none

/-- `pattern.search(line)`: leftmost match of the strict pattern. -/
def searchStrict : List Char → Option RawFields
  | [] => none
  | c :: t =>
    match lazyNameS [] (c :: t) with
    | some f => some f
    | none => searchStrict t

/-- The per-candidate body of `normalize_tests` after field extraction
(lines 148-177): resolve the name, validate the unit, convert the value,
resolve the status, and build the record; any rejection yields `none`.
The catalog lookup cannot fail because the resolver returns one of the
catalog keys; its `none` arm is a dead branch. -/
def processFields (rawName valueStr : String) (unitRaw statusRaw : Option String) :
    Option NormalizedTest :=
  match findBestTestNameMatch rawName validTestNames 75 with
  | none => none
  | some bestName =>
    match lookupTest bestName with
    | none => none
    | some info =>
      let unitAccepted : Bool :=
        match unitRaw with
        | none => true
        | some u => if u == "" then true else sanitizeUnit u == sanitizeUnit info.unit
      if unitAccepted then
        match parsePyFloat valueStr with
        | none => none
        | some value =>
          match determineStatus statusRaw value info with
          | none => none
          | some st =>
            some { name := bestName, value := value, unit := info.unit,
                   status := st, ref_range := info.ref_range }
      else none

/-- One iteration of the `normalize_tests` loop: strict-pattern search,
then field cleanup (`strip` on name and unit, comma/`o`/`O` cleanup on the
value), then `processFields`. -/
def normalizeLine (line : String) : Option NormalizedTest :=
  match searchStrict line.data with
  | none => none
  | some f =>
    processFields (pyStrip (String.mk f.nameChars))
      (String.mk (cleanValueChars f.valueChars))
      (f.unitChars.map (fun u => pyStrip (String.mk u)))
      (f.statusChars.map String.mk)

/-- The result record of `normalize_tests`. -/
structure NormalizeResult where
  tests : List NormalizedTest
  normalization_confidence : ℚ
deriving DecidableEq

/-- `normalize_tests(corrected_lines)`: accepted records in input order,
plus `round(len(tests)/len(lines) if lines else 0.0, 2)`. -/
def normalizeTests (lines : List String) : NormalizeResult :=
  let results := lines.filterMap normalizeLine
  { tests := results,
    normalization_confidence :=
      pyRound2 (if lines.isEmpty then 0
                else Rat.divInt results.length lines.length) }

/-! ## Summary Generator (`generate_summary`, `core/summarizer.py`) -/

/-- The display limit `summary_limit = 3`. -/
def summaryLimit : Nat := 3

/-- The explanation phrase `MEDICAL_TESTS.get(key, {}).get("explanation_" + status, "")`. -/
def explanationText (entry : Option CatalogEntry) (st : Status) : String :=
  match entry with
  | none => ""
  | some e =>
    match st with
    | .low => e.explanation_low
    | .high => e.explanation_high
    | .normal => ""

/-- One iteration of the `generate_summary` loop: the optional summary
point and the (always produced) explanation sentence for one record. -/
def summarizeOne (t : NormalizedTest) : Option String × String :=
  if statusName t.status == "normal" then
    (none, t.name ++ ": This result is within the normal range.")
  else
    let point := statusName t.status ++ " " ++ t.name
    let phrase := explanationText (lookupTest (myToLowerStr t.name)) t.status
    (some point,
     if phrase == "" then
       t.name ++ ": No specific explanation is available for this result."
     else t.name ++ " " ++ phrase)

/-- The abnormal summary points accumulated by the loop, in input order. -/
def summaryPointsOf (tests : List NormalizedTest) : List String :=
  (tests.map summarizeOne).filterMap (·.1)

/-- The result record of `generate_summary`. -/
structure SummaryResult where
  summary : String
  explanations : List String
deriving DecidableEq

/-- The final summary sentence of `generate_summary` (lines 38-52), which
the Python code builds from `summary_points` alone. -/
def summaryFromPoints (summaryPoints : List String) : String :=
  if summaryPoints.isEmpty then
    "All test results appear to be within the normal range."
  else if summaryLimit < summaryPoints.length then
    "Your report shows " ++ joinWith ", " (summaryPoints.take summaryLimit)
      ++ ", and " ++ toString (summaryPoints.length - summaryLimit)
      ++ " more abnormal results."
  else if summaryPoints.length = 1 then
    "Your report shows " ++ summaryPoints.headD "" ++ "."
  else if summaryPoints.length = 2 then
    "Your report shows " ++ summaryPoints.headD "" ++ " and "
      ++ (summaryPoints.drop 1).headD "" ++ "."
  else
    "Your report shows " ++ joinWith ", " summaryPoints.dropLast
      ++ ", and " ++ summaryPoints.getLastD "" ++ "."

/-- `generate_summary(normalized_tests)`. -/
def generateSummary (tests : List NormalizedTest) : SummaryResult :=
  let pairs := tests.map summarizeOne
  let summaryPoints := pairs.filterMap (·.1)
  let explanations := pairs.map (·.2)
  { summary := summaryFromPoints summaryPoints,
    explanations :=
      if explanations.isEmpty then
        ["No additional details are available for these results."]
      else explanations }

/-! ## Pipeline Orchestrator (`process_medical_report`, `core/pipeline.py`) -/

/-- The sole externally visible artifact (spec §3 `PipelineResult`):
`ok` carries tests and summary, the terminal failures carry a reason. -/
inductive PipelineResult where
  | ok (tests : List NormalizedTest) (summary : String)
  | unprocessed (reason : String)
  | error (reason : String)
deriving DecidableEq

/-- The `status` field of the returned record. -/
def PipelineResult.status : PipelineResult → String
  | .ok _ _ => "ok"
  | .unprocessed _ => "unprocessed"
  | .error _ => "error"

/-- The tuple returned by the external OCR collaborator
(`extract_text_from_report`): recognized text (or `None` on failure) and
an average confidence.  Spec §1 treats OCR as a black box. -/
structure OcrOutcome where
  text : Option String
  conf : ℚ

/-- `extract_text_from_report(ocr_engine, image_path)`: the core simply
invokes the injected collaborator (its internals — PaddleOCR passes and
OpenCV preprocessing — are outside the core per spec §1). -/
def extractTextFromReport (engine : String → OcrOutcome) (imagePath : String) :
    OcrOutcome := engine imagePath

/-- The body of the `try` block of `process_medical_report` (lines 55-94):
extraction, normalization, summary.  Every stage of the embedding is
total, so the `except` conversion to an "error" result is never taken on
this path. -/
def runTextStages (text : String) : PipelineResult :=
  let extraction := extractTestLines text
  if extraction.isEmpty then
    .unprocessed "No hallucinated tests not present in input"
  else
    let norm := normalizeTests extraction
    if norm.tests.isEmpty then
      .unprocessed "No hallucinated tests not present in input."
    else
      .ok norm.tests (generateSummary norm.tests).summary

/-- `process_medical_report(raw_text, image_path, ocr_engine)`
(`core/pipeline.py` lines 25-94).  The image branch is taken whenever
`image_path` is truthy; otherwise a truthy `raw_text` is processed;
otherwise the no-input error is returned. -/
def processMedicalReport (rawText imagePath : Option String)
    (ocrEngine : Option (String → OcrOutcome)) : PipelineResult :=
  if strTruthy imagePath then
    match ocrEngine with
    | none => .error "OCR engine not provided for image processing."
    | some engine =>
      let out := extractTextFromReport engine (imagePath.getD "")
      match out.text with
      | none => .error "Image file not found or could not be processed."
      | some t =>
        if pyStrip t == "" then
          .unprocessed "OCR failed: No text could be extracted from the image."
        else runTextStages t
  else if strTruthy rawText then
    runTextStages (rawText.getD "")
  else
    .error "No input provided (either text or image is required)."

/-! ## Helper lemmas -/

/-- Batteries' executable `Rat.floor` agrees with the mathematical floor. -/
theorem rat_floor_eq (q : ℚ) : q.floor = ⌊q⌋ :=
  (Rat.floor_def' q).trans Rat.floor_def.symm

/-- The numerator as the value scaled by the denominator. -/
theorem num_eq_self_mul_den (x : ℚ) : (x.num : ℚ) = x * (x.den : ℚ) := by
  have hd : (x.den : ℚ) ≠ 0 := by
    exact_mod_cast x.den_nz
  have h := (Rat.num_div_den x).symm
  rw [eq_div_iff hd] at h
  exact h.symm

/-- `roundHalfEven` stays within `[0, 100]` on inputs in `[0, 100]`. -/
theorem roundHalfEven_bounds (x : ℚ) (h0 : 0 ≤ x) (h1 : x ≤ 100) :
    0 ≤ roundHalfEven x ∧ roundHalfEven x ≤ 100 := by
  have hfl : x.floor = ⌊x⌋ := rat_floor_eq x
  have hdenQ : (0 : ℚ) < (x.den : ℚ) := by exact_mod_cast x.pos
  have hdenZ : (1 : ℤ) ≤ (x.den : ℤ) := by exact_mod_cast x.pos
  have hnum : (x.num : ℚ) = x * (x.den : ℚ) := num_eq_self_mul_den x
  have hf0 : 0 ≤ ⌊x⌋ := Int.floor_nonneg.mpr h0
  have hf100 : ⌊x⌋ ≤ 100 := by
    have h := Int.floor_le_floor h1
    simpa using h
  have hplus : ¬ 2 * (x.num - x.floor * (x.den : ℤ)) < (x.den : ℤ) →
      x.floor + 1 ≤ 100 := by
    intro hb
    push_neg at hb
    have hr1 : 1 ≤ x.num - x.floor * (x.den : ℤ) := by omega
    have hcast : (x.floor : ℚ) * (x.den : ℚ) + 1 ≤ (x.num : ℚ) := by
      exact_mod_cast (by omega : x.floor * (x.den : ℤ) + 1 ≤ x.num)
    have hlt : (x.floor : ℚ) < x := by nlinarith [hcast, hnum, hdenQ]
    have : (x.floor : ℚ) < 100 := lt_of_lt_of_le hlt h1
    have : x.floor < 100 := by exact_mod_cast this
    omega
  unfold roundHalfEven
  split_ifs with hb1 hb2 hb3
  · exact ⟨by omega, by omega⟩
  · exact ⟨by omega, hplus hb1⟩
  · exact ⟨by omega, by omega⟩
  · exact ⟨by omega, hplus hb1⟩

/-- `pyRound2` maps `[0, 1]` into `[0, 1]`. -/
theorem pyRound2_bounds (q : ℚ) (h0 : 0 ≤ q) (h1 : q ≤ 1) :
    0 ≤ pyRound2 q ∧ pyRound2 q ≤ 1 := by
  have hx : Rat.divInt (q.num * 100) (q.den : ℤ) = 100 * q := by
    rw [Rat.divInt_eq_div]
    push_cast
    rw [mul_comm (q.num : ℚ) 100, mul_div_assoc, Rat.num_div_den]
  have hb := roundHalfEven_bounds (Rat.divInt (q.num * 100) (q.den : ℤ))
    (by rw [hx]; positivity) (by rw [hx]; linarith)
  unfold pyRound2
  rw [Rat.divInt_eq_div]
  constructor
  · apply div_nonneg
    · exact_mod_cast hb.1
    · norm_num
  · rw [div_le_one (by norm_num : (0:ℚ) < ((100:ℤ) : ℚ))]
    exact_mod_cast hb.2

/-- `round(0.0, 2) = 0.0`. -/
theorem pyRound2_zero : pyRound2 0 = 0 := by decide

/-! ## Claim theorems -/

/-- C1: The normalization confidence returned by `normalize_tests` equals
the count of accepted records divided by the count of candidate lines,
rounded to two decimals, and it always lies in `[0, 1]`; it is `0.0`
whenever the candidate list is empty.  (The "exactly when" direction of
the claim fails, see the counterexample.) -/
theorem c1_normalization_confidence (lines : List String) :
    ((normalizeTests lines).normalization_confidence
        = pyRound2 (if lines.isEmpty then 0
                    else ((normalizeTests lines).tests.length : ℚ) / (lines.length : ℚ)))
    ∧ 0 ≤ (normalizeTests lines).normalization_confidence
    ∧ (normalizeTests lines).normalization_confidence ≤ 1
    ∧ (lines = [] → (normalizeTests lines).normalization_confidence = 0) := by
  have harg : (if lines.isEmpty then (0:ℚ)
        else Rat.divInt ((lines.filterMap normalizeLine).length : ℤ) (lines.length : ℤ))
      = (if lines.isEmpty then 0
        else (((lines.filterMap normalizeLine).length : ℚ)) / ((lines.length : ℚ))) := by
    by_cases h : lines.isEmpty
    · simp [h]
    · simp only [h, if_false]
      rw [Rat.divInt_eq_div]
      push_cast
      rfl
  have hconf : (normalizeTests lines).normalization_confidence
      = pyRound2 (if lines.isEmpty then 0
          else (((lines.filterMap normalizeLine).length : ℚ)) / ((lines.length : ℚ))) := by
    rw [← harg]; rfl
  have hbounds : 0 ≤ (normalizeTests lines).normalization_confidence
      ∧ (normalizeTests lines).normalization_confidence ≤ 1 := by
    rw [hconf]
    by_cases h : lines.isEmpty
    · simp [h, pyRound2_zero]
    · rw [if_neg h]
      have hpos : (0 : ℚ) < (lines.length : ℚ) := by
        have : lines ≠ [] := by
          simpa [List.isEmpty_iff] using h
        exact_mod_cast List.length_pos.mpr this
      have hle : ((lines.filterMap normalizeLine).length : ℚ) ≤ (lines.length : ℚ) := by
        exact_mod_cast List.length_filterMap_le normalizeLine lines
      exact pyRound2_bounds _ (by positivity) (by rw [div_le_one hpos]; exact hle)
  refine ⟨hconf, hbounds.1, hbounds.2, ?_⟩
  intro h
  subst h
  simpa using hconf.trans (by norm_num [pyRound2_zero])

/-- C1 counterexample: a single candidate line that survives extraction
but is rejected by normalization yields confidence `0.0` with a nonzero
candidate count, refuting "equals 0.0 exactly when the candidate count
is 0". -/
theorem c1_confidence_zero_counterexample :
    (normalizeTests ["????"]).normalization_confidence = 0
    ∧ (["????"] : List String).length ≠ 0 := by
  constructor
  · decide
  · decide

/-- C1 witness. -/
theorem c1_confidence_witness :
    (normalizeTests ([] : List String)).normalization_confidence = 0
    ∧ 0 ≤ (normalizeTests ["Hemoglobin: 10.2 g/dL (Low)"]).normalization_confidence :=
  ⟨(c1_normalization_confidence []).2.2.2 rfl,
   (c1_normalization_confidence ["Hemoglobin: 10.2 g/dL (Low)"]).2.1⟩

/-- C2: When no status token is present, the status produced by
`_determine_status` is determined purely by comparing the value against
the entry's reference bounds: low iff `value < ref_low`, high iff
`value > ref_high`, and the two XOR identities of the spec hold. -/
theorem c2_derived_status (v : ℚ) (e : CatalogEntry)
    (h : e.ref_range.low ≤ e.ref_range.high) (st : Status)
    (hst : determineStatus none v e = some st) :
    ((st = .low ↔ v < e.ref_range.low) ∧ (st = .high ↔ e.ref_range.high < v))
    ∧ Xor' (e.ref_range.low ≤ v) (st = .low)
    ∧ Xor' (v ≤ e.ref_range.high) (st = .high) := by
  have hst' : (if v < e.ref_range.low then Status.low
      else if e.ref_range.high < v then Status.high else Status.normal) = st := by
    simpa [determineStatus, strTruthy] using hst
  by_cases h1 : v < e.ref_range.low
  · have hlh : ¬ e.ref_range.high < v := by linarith
    simp only [h1, if_true] at hst'
    subst hst'
    refine ⟨⟨by simp [h1], by simp [hlh]⟩, ?_, ?_⟩
    · exact Or.inr ⟨rfl, by linarith⟩
    · exact Or.inl ⟨by linarith, by simp⟩
  · by_cases h2 : e.ref_range.high < v
    · simp only [h1, if_false, h2, if_true] at hst'
      subst hst'
      refine ⟨⟨by simp [h1], by simp [h2]⟩, ?_, ?_⟩
      · exact Or.inl ⟨by linarith, by simp⟩
      · exact Or.inr ⟨rfl, by linarith⟩
    · simp only [h1, if_false, h2, if_false] at hst'
      subst hst'
      refine ⟨⟨by simp [h1], by simp [h2]⟩, ?_, ?_⟩
      · exact Or.inl ⟨by linarith, by simp⟩
      · exact Or.inl ⟨by linarith, by simp⟩

/-- C2 witness. -/
theorem c2_derived_status_witness :
    (Status.low = .low ↔ (10 : ℚ) < 12)
    ∧ Xor' ((12 : ℚ) ≤ 10) (Status.low = .low) :=
  have h := c2_derived_status 10
    { unit := "g/dL", ref_range := { low := 12, high := 15 },
      explanation_low := "", explanation_high := "" }
    (by norm_num) .low (by decide)
  ⟨h.1.1, h.2.1⟩

/-- C3: When a (truthy) status token is present, `_determine_status`
resolves it from the token alone — the value and the reference bounds
never influence the result — through the fixed abbreviation/typo table,
then by substring containment of "high" / "low", and rejects (`none`)
when neither applies. -/
theorem c3_explicit_status (s : String) (hs : s ≠ "") (v v' : ℚ)
    (e e' : CatalogEntry) :
    determineStatus (some s) v e = determineStatus (some s) v' e'
    ∧ determineStatus (some s) v e = statusFromToken s
    ∧ determineStatus (some "h") v e = some .high
    ∧ determineStatus (some "hgh") v e = some .high
    ∧ determineStatus (some "ligh") v e = some .high
    ∧ determineStatus (some "l") v e = some .low
    ∧ determineStatus (some "loh") v e = some .low
    ∧ determineStatus (some "n") v e = some .normal
    ∧ determineStatus (some "noraml") v e = some .normal
    ∧ (assocFind (myToLowerStr s) statusTable = none →
        determineStatus (some s) v e =
          (if listContainsSub "high".data (myToLowerStr s).data then some .high
           else if listContainsSub "low".data (myToLowerStr s).data then some .low
           else none)) := by
  have htr : strTruthy (some s) = true := by
    simp [strTruthy, hs]
  have hkey : ∀ w : ℚ, ∀ d : CatalogEntry,
      determineStatus (some s) w d = statusFromToken s := by
    intro w d
    simp [determineStatus, htr]
  refine ⟨(hkey v e).trans (hkey v' e').symm, hkey v e, rfl, rfl, rfl, rfl, rfl, rfl, rfl, ?_⟩
  intro hnone
  rw [hkey v e]
  simp [statusFromToken, hnone]

/-- C3 witness. -/
theorem c3_explicit_status_witness :
    determineStatus (some "hgh") 0
      { unit := "u", ref_range := { low := 0, high := 1 },
        explanation_low := "", explanation_high := "" }
    = determineStatus (some "hgh") 99
      { unit := "x", ref_range := { low := 5, high := 6 },
        explanation_low := "a", explanation_high := "b" }
    ∧ determineStatus (some "hgh") 0
      { unit := "u", ref_range := { low := 0, high := 1 },
        explanation_low := "", explanation_high := "" } = some .high :=
  have h := c3_explicit_status "hgh" (by decide) 0 99
    { unit := "u", ref_range := { low := 0, high := 1 },
      explanation_low := "", explanation_high := "" }
    { unit := "x", ref_range := { low := 5, high := 6 },
      explanation_low := "a", explanation_high := "b" }
  ⟨h.1, h.2.2.2.1⟩

/-- C4: On the raw-text path, zero extracted candidates, or candidates
that all fail normalization, give the terminal status "unprocessed", and
whenever at least one record is accepted the pipeline status is "ok"
(per-candidate rejections never escalate). -/
theorem c4_empty_stages_unprocessed (text : String) (h : text ≠ "") :
    (extractTestLines text = [] →
      (processMedicalReport (some text) none none).status = "unprocessed")
    ∧ (extractTestLines text ≠ [] →
        (normalizeTests (extractTestLines text)).tests = [] →
      (processMedicalReport (some text) none none).status = "unprocessed")
    ∧ ((normalizeTests (extractTestLines text)).tests ≠ [] →
      (processMedicalReport (some text) none none).status = "ok") := by
  have hpr : processMedicalReport (some text) none none = runTextStages text := by
    simp [processMedicalReport, strTruthy, h]
  refine ⟨?_, ?_, ?_⟩
  · intro hext
    rw [hpr]
    simp [runTextStages, hext, PipelineResult.status]
  · intro hext hnorm
    rw [hpr]
    simp [runTextStages, List.isEmpty_iff, hext, hnorm, PipelineResult.status]
  · intro hne
    have hext : extractTestLines text ≠ [] := by
      intro hh
      apply hne
      rw [hh]
      rfl
    rw [hpr]
    simp [runTextStages, List.isEmpty_iff, hext, hne, PipelineResult.status]

set_option maxRecDepth 400000 in
set_option maxHeartbeats 2000000 in
/-- C4 witness. -/
theorem c4_empty_stages_unprocessed_witness :
    (processMedicalReport (some "????") none none).status = "unprocessed"
    ∧ (processMedicalReport (some "zz 9") none none).status = "unprocessed"
    ∧ (processMedicalReport (some "Hemoglobin: 10.2 g/dL (Low)") none none).status = "ok" :=
  ⟨(c4_empty_stages_unprocessed "????" (by decide)).1 (by decide),
   (c4_empty_stages_unprocessed "zz 9" (by decide)).2.1 (by decide) (by decide),
   (c4_empty_stages_unprocessed "Hemoglobin: 10.2 g/dL (Low)" (by decide)).2.2 (by decide)⟩

/-- C5: Calling the entry point with neither raw text nor an image
(including the empty string as raw text) yields the no-input error, and
an image path without an OCR collaborator yields the missing-engine
error. -/
theorem c5_no_input_error (rt ip : Option String)
    (eng : Option (String → OcrOutcome)) :
    (processMedicalReport none none eng
        = .error "No input provided (either text or image is required).")
    ∧ (processMedicalReport (some "") none eng
        = .error "No input provided (either text or image is required).")
    ∧ (strTruthy ip = true →
        processMedicalReport rt ip none
          = .error "OCR engine not provided for image processing.") := by
  refine ⟨rfl, rfl, ?_⟩
  intro hip
  simp [processMedicalReport, hip]

/-- C5 witness. -/
theorem c5_no_input_error_witness :
    processMedicalReport none none none
      = .error "No input provided (either text or image is required)."
    ∧ processMedicalReport (some "some text") (some "img.png") none
      = .error "OCR engine not provided for image processing." :=
  ⟨(c5_no_input_error none none none).1,
   (c5_no_input_error (some "some text") (some "img.png") none).2.2 (by decide)⟩

set_option maxHeartbeats 4000000 in
/-- C6: With the resolved catalog entry fixed, an absent unit token is
accepted (the candidate is processed exactly as if no unit check
existed), and a present unit token is accepted iff sanitizing it and the
catalog unit with `_sanitize_unit` gives equal strings — on mismatch the
whole candidate is dropped.  The sanitizer lowercases, strips
whitespace, and identifies the ASCII `ul` with `µl`. -/
theorem c6_unit_check (name valueStr u : String) (statusRaw : Option String)
    (key : String) (entry : CatalogEntry)
    (hk : findBestTestNameMatch name validTestNames 75 = some key)
    (he : lookupTest key = some entry) (hu : u ≠ "") :
    (sanitizeUnit u ≠ sanitizeUnit entry.unit →
        processFields name valueStr (some u) statusRaw = none)
    ∧ (sanitizeUnit u = sanitizeUnit entry.unit →
        processFields name valueStr (some u) statusRaw
          = processFields name valueStr none statusRaw)
    ∧ sanitizeUnit "/uL" = sanitizeUnit "/µL"
    ∧ sanitizeUnit " G /d L " = "g/dl" := by
  have hbeq : (u == "") = false := by
    simpa using hu
  refine ⟨?_, ?_, by decide, by decide⟩
  · intro hne
    have hbeq2 : (sanitizeUnit u == sanitizeUnit entry.unit) = false := by
      simpa using hne
    simp only [processFields, hk, he, hbeq, hbeq2, Bool.false_eq_true, if_false]
  · intro heq
    have hbeq2 : (sanitizeUnit u == sanitizeUnit entry.unit) = true := by
      simpa using heq
    simp only [processFields, hk, he, hbeq, hbeq2, Bool.false_eq_true, if_false, if_true]

set_option maxRecDepth 400000 in
set_option maxHeartbeats 2000000 in
/-- C6 witness. -/
theorem c6_unit_check_witness :
    processFields "hemoglobin" "10.2" (some "mg/dl") none = none
    ∧ sanitizeUnit "/uL" = sanitizeUnit "/µL" :=
  have h := c6_unit_check "hemoglobin" "10.2" "mg/dl" none "hemoglobin"
    ((lookupTest "hemoglobin").getD
      { unit := "", ref_range := { low := 0, high := 0 },
        explanation_low := "", explanation_high := "" })
    (by decide) (by decide) (by decide)
  ⟨h.1 (by decide), h.2.2.1⟩

/-- The summary points are exactly the "{status} {name}" phrases of the
records whose status is not normal, in input order. -/
theorem summaryPointsOf_eq (ts : List NormalizedTest) :
    summaryPointsOf ts = ts.filterMap (fun t =>
      if t.status = .normal then none
      else some (statusName t.status ++ " " ++ t.name)) := by
  induction ts with
  | nil => rfl
  | cons t rest ih =>
    unfold summaryPointsOf at ih ⊢
    simp only [List.map_cons, List.filterMap_cons]
    cases ht : t.status <;> simp [summarizeOne, statusName, ht, ih]

/-- C7: The summary sentence depends only on the list of abnormal points
and is arity-sensitive: a fixed sentence for zero points, a one-clause
sentence for one, an "X and Y" sentence for two, and beyond the display
limit (3) the first three points joined by commas followed by
"and K more abnormal results". -/
theorem c7_summary_arity (ts ts' : List NormalizedTest)
    (h : summaryPointsOf ts = summaryPointsOf ts') :
    ((generateSummary ts).summary = (generateSummary ts').summary)
    ∧ (summaryPointsOf ts = [] →
        (generateSummary ts).summary
          = "All test results appear to be within the normal range.")
    ∧ (∀ p, summaryPointsOf ts = [p] →
        (generateSummary ts).summary = "Your report shows " ++ p ++ ".")
    ∧ (∀ p q, summaryPointsOf ts = [p, q] →
        (generateSummary ts).summary
          = "Your report shows " ++ p ++ " and " ++ q ++ ".")
    ∧ (summaryLimit < (summaryPointsOf ts).length →
        (generateSummary ts).summary
          = "Your report shows "
              ++ joinWith ", " ((summaryPointsOf ts).take summaryLimit)
              ++ ", and " ++ toString ((summaryPointsOf ts).length - summaryLimit)
              ++ " more abnormal results.")
    ∧ summaryPointsOf ts = ts.filterMap (fun t =>
        if t.status = .normal then none
        else some (statusName t.status ++ " " ++ t.name)) := by
  have hsum : ∀ l : List NormalizedTest,
      (generateSummary l).summary = summaryFromPoints (summaryPointsOf l) :=
    fun _ => rfl
  refine ⟨by rw [hsum, hsum, h], ?_, ?_, ?_, ?_, summaryPointsOf_eq ts⟩
  · intro h0
    rw [hsum, h0]
    rfl
  · intro p hp
    rw [hsum, hp]
    simp [summaryFromPoints, summaryLimit]
  · intro p q hpq
    rw [hsum, hpq]
    simp [summaryFromPoints, summaryLimit]
  · intro hlen
    rw [hsum]
    have hne : ¬ (summaryPointsOf ts).isEmpty = true := by
      simp only [List.isEmpty_iff]
      intro hh
      rw [hh] at hlen
      simp [summaryLimit] at hlen
    rw [summaryFromPoints, if_neg hne, if_pos hlen]

/-- C7 witness. -/
theorem c7_summary_arity_witness :
    (generateSummary
        [{ name := "hemoglobin", value := 10, unit := "g/dL", status := .low,
           ref_range := { low := 12, high := 15 } }]).summary
      = "Your report shows low hemoglobin." :=
  (c7_summary_arity
      [{ name := "hemoglobin", value := 10, unit := "g/dL", status := .low,
         ref_range := { low := 12, high := 15 } }]
      [{ name := "hemoglobin", value := 10, unit := "g/dL", status := .low,
         ref_range := { low := 12, high := 15 } }]
      rfl).2.2.1 "low hemoglobin" (by decide)

/-- C8 counterexample: on the empty record list the code substitutes a
one-element fallback explanations list, so "exactly one entry per input
record" fails for zero records. -/
theorem c8_explanations_counterexample :
    (generateSummary ([] : List NormalizedTest)).explanations.length
      ≠ ([] : List NormalizedTest).length := by
  decide

/-- C8 (amended): the generator is total by construction, and for every
non-empty record list the explanations have exactly one entry per input
record, in input order: the within-range sentence for normal records,
and the catalog explanation (or the generic no-specific-explanation
sentence) for abnormal ones. -/
theorem c8_explanations (ts : List NormalizedTest) (h : ts ≠ []) :
    (generateSummary ts).explanations.length = ts.length
    ∧ (generateSummary ts).explanations = ts.map (fun t => (summarizeOne t).2)
    ∧ (∀ t : NormalizedTest, t.status = .normal →
        (summarizeOne t).2 = t.name ++ ": This result is within the normal range.")
    ∧ (∀ t : NormalizedTest, t.status ≠ .normal →
        (summarizeOne t).2 =
          (if explanationText (lookupTest (myToLowerStr t.name)) t.status == "" then
            t.name ++ ": No specific explanation is available for this result."
           else t.name ++ " "
             ++ explanationText (lookupTest (myToLowerStr t.name)) t.status)) := by
  have hexp : (generateSummary ts).explanations
      = ts.map (fun t => (summarizeOne t).2) := by
    have hne : ¬ ((ts.map summarizeOne).map (·.2)).isEmpty = true := by
      simp [List.isEmpty_iff, h]
    show (if ((ts.map summarizeOne).map (·.2)).isEmpty then _
          else (ts.map summarizeOne).map (·.2)) = _
    rw [if_neg hne, List.map_map]
    rfl
  refine ⟨by rw [hexp]; simp, hexp, ?_, ?_⟩
  · intro t ht
    simp [summarizeOne, statusName, ht]
  · intro t ht
    cases hstat : t.status
    · simp [summarizeOne, statusName, hstat]
    · exact absurd hstat ht
    · simp [summarizeOne, statusName, hstat]

/-- C8 witness. -/
theorem c8_explanations_witness :
    (generateSummary
        [{ name := "wbc", value := 11200, unit := "/uL", status := .high,
           ref_range := { low := 4000, high := 11000 } }]).explanations
      = ["wbc count is higher than the normal range, which may be linked to infection or inflammation."] :=
  have h := c8_explanations
    [{ name := "wbc", value := 11200, unit := "/uL", status := .high,
       ref_range := { low := 4000, high := 11000 } }] (by decide)
  h.2.1.trans (by decide)

/-- C9: The pipeline is a pure function of its inputs: two invocations
on the identical raw text yield the same `PipelineResult` (the embedding
has no randomness, time dependence, or shared state — the Python code's
only side effects are diagnostic prints). -/
theorem c9_deterministic (text : String) (r1 r2 : PipelineResult)
    (h1 : r1 = processMedicalReport (some text) none none)
    (h2 : r2 = processMedicalReport (some text) none none) : r1 = r2 :=
  h1.trans h2.symm

/-- C9 witness. -/
theorem c9_deterministic_witness :
    processMedicalReport (some "Hemoglobin: 10.2 g/dL (Low)") none none
      = processMedicalReport (some "Hemoglobin: 10.2 g/dL (Low)") none none :=
  c9_deterministic "Hemoglobin: 10.2 g/dL (Low)" _ _ rfl rfl

/-- C10: When both a truthy raw text and a truthy image path are given,
the image branch is taken and the raw text is ignored: the result is
exactly that of the image-only call (for any OCR engine argument), and
no dual-input error exists. -/
theorem c10_image_precedence (t p : String) (ht : t ≠ "") (hp : p ≠ "")
    (eng : Option (String → OcrOutcome)) :
    processMedicalReport (some t) (some p) eng
      = processMedicalReport none (some p) eng := by
  simp [processMedicalReport, strTruthy, hp]

/-- C10 witness. -/
theorem c10_image_precedence_witness :
    processMedicalReport (some "Hemoglobin: 10.2")
        (some "report.png") (some (fun _ => ⟨some "wbc 11200 /uL (High)", 1⟩))
      = processMedicalReport none
        (some "report.png") (some (fun _ => ⟨some "wbc 11200 /uL (High)", 1⟩)) :=
  c10_image_precedence "Hemoglobin: 10.2" "report.png"
    (by decide) (by decide) (some (fun _ => ⟨some "wbc 11200 /uL (High)", 1⟩))

end MedSimp
